import Mathlib

/-!
Verification development for the Prediction Tracking and Multi-Horizon
Verification Engine of the stock toolkit (src/src/prediction_tracker.py).

The Python subsystem is shallowly embedded below: dates are modelled as
proleptic Gregorian ordinals (integers, matching `datetime.date.toordinal`,
so ordinal 1 is Monday, year 1, January 1), prices and percentages as
rationals, the JSON store as a function from date ordinals to optional
prediction sets, and the market-data provider (`get_close_price`, backed by
yfinance in the source) as an abstract function from symbol and date to an
optional closing price.  Each definition mirrors a specific function of the
source file; the source line numbers are given in the doc comments.
-/

/-- Weekday of a proleptic Gregorian ordinal, as in Python `datetime`:
0 = Monday .. 6 = Sunday.  Ordinal 1 (year 1, Jan 1) is a Monday. -/
def weekdayZ (d : ℤ) : ℤ := (d + 6) % 7

/-- Mirrors the Python test `date.weekday() < 5` (Monday to Friday) used in
`_add_trading_days` / `_subtract_trading_days` (lines 706 and 716). -/
def isWeekday (d : ℤ) : Bool := decide (weekdayZ d < 5)

/-- First weekday at or after `d`.  Any three consecutive days contain a
weekday, so scanning two days ahead suffices; this is the closed form of the
day-by-day scan in the Python while-loop. -/
def nextWeekdayFrom (d : ℤ) : ℤ :=
  if isWeekday d then d else if isWeekday (d + 1) then d + 1 else d + 2

/-- Last weekday at or before `d`; closed form of the backward scan. -/
def prevWeekdayFrom (d : ℤ) : ℤ :=
  if isWeekday d then d else if isWeekday (d - 1) then d - 1 else d - 2

/-- Source `_add_trading_days` (lines 700-708): step one calendar day at a
time, counting only Mon-Fri, until `days` weekdays have been counted.  Each
counted step moves to the first weekday strictly after the current day, which
is `nextWeekdayFrom (d + 1)`. -/
def add_trading_days : ℤ → ℕ → ℤ
  | d, 0 => d
  | d, n + 1 => add_trading_days (nextWeekdayFrom (d + 1)) n

/-- Source `_subtract_trading_days` (lines 710-718): the backward analogue. -/
def subtract_trading_days : ℤ → ℕ → ℤ
  | d, 0 => d
  | d, n + 1 => subtract_trading_days (prevWeekdayFrom (d - 1)) n

/-- Leap-year test of the proleptic Gregorian calendar (Python `calendar`). -/
def isLeapYear (y : ℕ) : Bool :=
  decide ((y % 4 = 0 ∧ y % 100 ≠ 0) ∨ y % 400 = 0)

/-- Cumulative day counts before each month (index 0 = January). -/
def days_before_month (m : ℕ) (leap : Bool) : ℕ :=
  [0, 31, 59, 90, 120, 151, 181, 212, 243, 273, 304, 334].getD (m - 1) 0
    + (if leap ∧ 2 < m then 1 else 0)

/-- Proleptic Gregorian ordinal of a calendar date, exactly as Python
`datetime.date(y, m, d).toordinal()`: ordinal 1 is 0001-01-01. -/
def toOrdinal (y m d : ℕ) : ℤ :=
  365 * ((y : ℤ) - 1) + (((y - 1) / 4 : ℕ) : ℤ) - (((y - 1) / 100 : ℕ) : ℤ)
    + (((y - 1) / 400 : ℕ) : ℤ) + (days_before_month m (isLeapYear y) : ℤ) + (d : ℤ)

/-- Round a rational to the nearest integer, halves up: the floor of
`q + 1/2`, computed as a floored integer division so that it evaluates inside
the kernel.  Python floats round halves to even instead; no value appearing
in this development is an exact tie, so the two agree on everything proved
here. -/
def pyRound (q : ℚ) : ℤ := Int.fdiv (2 * q.num + q.den) (2 * q.den)

/-- Python `round(x, n)` modelled on rationals: scale, round to the nearest
integer, unscale. -/
def roundTo (q : ℚ) (n : ℕ) : ℚ := ((pyRound (q * 10 ^ n) : ℤ) : ℚ) / 10 ^ n

/-- Source `_calculate_change_pct` (lines 436-440): percent change of the
close against the reference price, rounded to two decimals, with the
division-by-zero guard returning 0. -/
def calculate_change_pct (prev_close close_price : ℚ) : ℚ :=
  if prev_close = 0 then 0
  else roundTo ((close_price - prev_close) / prev_close * 100) 2

/-- The four verification horizons (source strings `T+0` .. `T+5`). -/
inductive Period where
  | T0 | T1 | T3 | T5
deriving DecidableEq

/-- Trading-day offset of each horizon (source `int(period.replace('T+',''))`
and the offsets used in `verify_predictions`, lines 359-364). -/
def periodDays : Period → ℕ
  | Period.T0 => 0
  | Period.T1 => 1
  | Period.T3 => 3
  | Period.T5 => 5

instance : Fintype Period :=
  ⟨⟨{Period.T0, Period.T1, Period.T3, Period.T5}, by decide⟩, fun x => by cases x <;> decide⟩

/-- One horizon's verification state inside a prediction record.  The source
keeps it as a JSON object; keys absent before first verification are modelled
with `Option`.  `result` is one of the source strings `pending`, `success`,
`partial`, `fail`. -/
structure VRes where
  date : Option ℤ
  close_price : Option ℚ
  change_pct : Option ℚ
  in_target_range : Option Bool
  direction_correct : Option Bool
  result : String
deriving DecidableEq

/-- Initial verification entry written by `save_predictions` (lines 328-333). -/
def pendingVRes : VRes :=
  { date := none, close_price := none, change_pct := none,
    in_target_range := none, direction_correct := none, result := "pending" }

/-- A stored prediction record (the per-stock dict of the source).  The
`confidence`, `reasons` and the redundant `target_range` tuple are omitted:
they are never read by verification or aggregation.  `direction` is one of
the source strings `up`, `down`, `neutral`. -/
structure PRecord where
  symbol : String
  name : String
  prev_close : ℚ
  direction : String
  target_min : ℚ
  target_max : ℚ
  pred_pct_min : Option ℚ
  pred_pct_max : Option ℚ
  verification : Period → VRes

/-- Outcome triple of `_verify_single_prediction`. -/
structure ClsRes where
  in_target_range : Bool
  direction_correct : Bool
  result : String
deriving DecidableEq

/-- Source `_verify_single_prediction` (lines 404-434): range check,
direction check, and the combined success/partial/fail classification. -/
def verify_single_prediction (pred : PRecord) (close_price : ℚ) : ClsRes :=
  let prev_close := pred.prev_close
  let in_target_range :=
    decide (pred.target_min ≤ close_price) && decide (close_price ≤ pred.target_max)
  let direction_correct :=
    if pred.direction = "up" then decide (close_price > prev_close)
    else if pred.direction = "down" then decide (close_price < prev_close)
    else true
  let result :=
    if in_target_range then "success"
    else if direction_correct then "partial" else "fail"
  { in_target_range := in_target_range, direction_correct := direction_correct,
    result := result }

/-- Abstract market-data provider: source `get_close_price` (lines 457-486),
which resolves a symbol and a date to a closing price via yfinance, or `none`
when no data is available. -/
def Provider : Type := String → ℤ → Option ℚ

/-- One stored prediction set: the JSON object kept under a date key
(lines 317-323).  The `prediction_date` / `market_date` fields merely repeat
the key and are omitted.  The `summary` holds, per horizon, the triple
(total, success, accuracy) written by `_update_summary`. -/
structure PredSet where
  predictions : List PRecord
  summary : Period → Option (ℕ × ℕ × ℚ)

/-- The whole predictions.json document: a map from date ordinals to
prediction sets (absent key = no predictions stored for that date). -/
def Store : Type := ℤ → Option PredSet

/-- Attach the initial all-pending verification map to a freshly extracted
prediction, as `save_predictions` does (lines 326-333). -/
def init_verification (symbol name : String) (prev_close : ℚ) (direction : String)
    (target_min target_max : ℚ) (pmin pmax : Option ℚ) : PRecord :=
  { symbol := symbol, name := name, prev_close := prev_close, direction := direction,
    target_min := target_min, target_max := target_max,
    pred_pct_min := pmin, pred_pct_max := pmax,
    verification := fun _ => pendingVRes }

/-- Number of records of a set whose stored result for horizon `p` is the
string `success` (the generator expression at lines 448-449). -/
def success_count (recs : List PRecord) (p : Period) : ℕ :=
  (recs.filter (fun r => decide ((r.verification p).result = "success"))).length

/-- Source `_update_summary` (lines 442-455): recompute the per-horizon
summary of one prediction set.  `total` is the number of ALL records in the
set (pending ones included), `success` counts records whose result string for
`p` is `success`, and `accuracy` is `round(success / total, 4)` (0 when the
set is empty). -/
def update_summary (s : PredSet) (p : Period) : PredSet :=
  let total := s.predictions.length
  let success := success_count s.predictions p
  let accuracy := if 0 < total then roundTo ((success : ℚ) / (total : ℚ)) 4 else 0
  { s with summary := Function.update s.summary p (some (total, success, accuracy)) }

/-- The verification entry written after a successful classification — the
dict literal that appears identically at lines 384-391 (in
`verify_predictions`) and at lines 571-578 (in `_verify_historical_periods`). -/
def classified_vres (verify_date : ℤ) (pred : PRecord) (close_price : ℚ) : VRes :=
  let r := verify_single_prediction pred close_price
  { date := some verify_date, close_price := some close_price,
    change_pct := some (calculate_change_pct pred.prev_close close_price),
    in_target_range := some r.in_target_range,
    direction_correct := some r.direction_correct,
    result := r.result }

/-- The per-record body of the loop in `verify_predictions` (lines 374-393):
fetch the close for `target_date`; on `None` skip the record, otherwise
classify and overwrite the `period` slot of its verification map.  Note that
the source does NOT test whether the slot is still pending. -/
def verify_record (gp : Provider) (target_date : ℤ) (p : Period) (pred : PRecord) : PRecord :=
  match gp pred.symbol target_date with
  | none => pred
  | some close_price =>
      { pred with verification :=
          Function.update pred.verification p (classified_vres target_date pred close_price) }

/-- Processing of one matched prediction set inside `verify_predictions`
(lines 371-399): run `verify_record` over every record, count the records
whose close was available, and recompute the summary for this horizon when at
least one record was verified. -/
def verify_set (gp : Provider) (target_date : ℤ) (p : Period) (data : PredSet) : PredSet :=
  let newPreds := data.predictions.map (verify_record gp target_date p)
  let verified_count :=
    (data.predictions.filter (fun pred => (gp pred.symbol target_date).isSome)).length
  if 0 < verified_count then update_summary { data with predictions := newPreds } p
  else { data with predictions := newPreds }

/-- One horizon of `verify_predictions`: look up the prediction set stored
under `subtract_trading_days target_date (periodDays p)`; a missing set is
skipped entirely (lines 366-369). -/
def verify_period (gp : Provider) (target_date : ℤ) (p : Period) (st : Store) : Store :=
  match st (subtract_trading_days target_date (periodDays p)) with
  | none => st
  | some data =>
      Function.update st (subtract_trading_days target_date (periodDays p))
        (some (verify_set gp target_date p data))

/-- Source `verify_predictions` (lines 340-402): process the four horizons in
order T+0, T+1, T+3, T+5, each against the prediction set stored for its own
source date. -/
def verify_predictions (gp : Provider) (target_date : ℤ) (st : Store) : Store :=
  verify_period gp target_date Period.T5
    (verify_period gp target_date Period.T3
      (verify_period gp target_date Period.T1
        (verify_period gp target_date Period.T0 st)))

/-- The prev_close backfill of `_verify_historical_periods` (lines 546-558),
per record: when `prev_close` is unresolved (0), fetch the close of the
trading day preceding the prediction date; Python truthiness (`if prev_close:`)
treats both `None` and a 0 price as unavailable.  When a price is obtained and
the record carries predicted percentages, the price targets are derived from
them. -/
def backfill_record (gp : Provider) (prev_date : ℤ) (pred : PRecord) : PRecord :=
  if pred.prev_close = 0 then
    match gp pred.symbol prev_date with
    | none => pred
    | some prev_close =>
        if prev_close = 0 then pred
        else
          match pred.pred_pct_min, pred.pred_pct_max with
          | some pmin, some pmax =>
              { pred with prev_close := prev_close,
                          target_min := roundTo (prev_close * (1 + pmin / 100)) 2,
                          target_max := roundTo (prev_close * (1 + pmax / 100)) 2 }
          | _, _ => { pred with prev_close := prev_close }
  else pred

/-- The classification step of `_verify_historical_periods` (lines 565-578),
per record: classify only when the close is available and truthy AND
`prev_close > 0`; otherwise the record is left untouched for this horizon. -/
def historical_classify (gp : Provider) (verify_date : ℤ) (p : Period) (pred : PRecord) : PRecord :=
  match gp pred.symbol verify_date with
  | none => pred
  | some close_price =>
      if close_price ≠ 0 ∧ 0 < pred.prev_close then
        { pred with verification :=
            Function.update pred.verification p (classified_vres verify_date pred close_price) }
      else pred

/-- One prediction block as the regex layer of `_extract_from_stock_sections`
(lines 210-282) sees it.  Each field is `some` exactly when the corresponding
regex matched inside the block: `header` carries the stock name and 4-digit
symbol, `direction_str` the text captured after the direction marker,
`target` the two numbers of the target-price pattern, and `prev_close_found`
the price found for the symbol in the institutional or holdings tables of the
surrounding document (the source defaults it to 0 when absent). -/
structure Block where
  header : Option (String × String)
  direction_str : Option String
  target : Option (ℚ × ℚ)
  prev_close_found : Option ℚ

/-- Source `_parse_direction` (lines 297-307): map the matched direction
vocabulary (traditional or simplified script, or English) onto the strings
`up`, `down`, `neutral`; anything unrecognised defaults to `neutral`. -/
def parse_direction (s : String) : String :=
  if s.contains '漲' ∨ s.contains '涨' ∨ 1 < (s.toLower.splitOn "up").length then "up"
  else if s.contains '跌' ∨ 1 < (s.toLower.splitOn "down").length then "down"
  else if s.contains '震' ∨ s.contains '盪' ∨ s.contains '荡' then "neutral"
  else "neutral"

/-- Freshly extracted prediction, before `save_predictions` attaches the
verification map (the dict built at lines 270-280). -/
structure RawPrediction where
  symbol : String
  name : String
  prev_close : ℚ
  direction : String
  target_min : ℚ
  target_max : ℚ
deriving DecidableEq

/-- The per-block body of `_extract_from_stock_sections` (lines 218-280): a
block missing its header, its direction or its target range is dropped
(`continue`); otherwise the record is built from the matched fields exactly
as matched, with `prev_close` defaulting to 0.  No validation relates
`target_min` and `target_max`. -/
def extract_block (b : Block) : Option RawPrediction :=
  match b.header with
  | none => none
  | some nameSym =>
      match b.direction_str with
      | none => none
      | some ds =>
          match b.target with
          | none => none
          | some t =>
              some { symbol := nameSym.2, name := nameSym.1,
                     prev_close := b.prev_close_found.getD 0,
                     direction := parse_direction ds,
                     target_min := t.1, target_max := t.2 }

/-- Source `_extract_from_stock_sections` (lines 210-282): keep the records
of the blocks that parsed. -/
def extract_from_stock_sections (blocks : List Block) : List RawPrediction :=
  blocks.filterMap extract_block

/-- A report document as the extractor sees it: whether the document-level
date regex matched, plus the prediction blocks. -/
structure Report where
  date_found : Bool
  blocks : List Block

/-- Source `extract_predictions_from_report` (lines 32-78), restricted to the
stock-sections path (the after-market-table and old-format paths extract
nothing from a plain before-market report).  The whole body is wrapped in
try/except returning `[]`, so it never raises; when the document date cannot
be found it also returns `[]`.  The second component models the only count
the source emits: the printed number of EXTRACTED predictions
(`len(predictions)`, line 71). -/
def extract_predictions_from_report (rep : Report) : List RawPrediction × ℕ :=
  if rep.date_found then
    let preds := extract_from_stock_sections rep.blocks
    (preds, preds.length)
  else ([], 0)

/-- Number of prediction blocks dropped by extraction; this is the claimed
(spec-side) notion of a discarded/malformed-block count — the source never
computes it. -/
def discarded_count (blocks : List Block) : ℕ :=
  (blocks.filter (fun b => (extract_block b).isNone)).length

/-- Modelled from the spec (section 4.4, step 3): the classification rule in
the spec's own words, used to compare against the source
`_verify_single_prediction`. -/
def spec_classify (direction : String) (prev_close target_min target_max close : ℚ) :
    Bool × Bool × String :=
  let in_range := decide (target_min ≤ close ∧ close ≤ target_max)
  let dir_ok :=
    if direction = "up" then decide (prev_close < close)
    else if direction = "down" then decide (close < prev_close)
    else true
  (in_range, dir_ok,
    if in_range then "success" else if dir_ok then "partial" else "fail")

/-- Modelled from the spec (section 4.5 and claim C2): accuracy as the claim
states it — successes divided by the count of NON-PENDING records, pending
records excluded from the denominator. -/
def claim_accuracy (recs : List PRecord) (p : Period) : ℚ :=
  let nonPending :=
    (recs.filter (fun r => decide (¬(r.verification p).result = "pending"))).length
  (success_count recs p : ℚ) / (nonPending : ℚ)

/-- Accuracy as the source actually computes it (the amended form of claim
C2): successes divided by the count of ALL records of the set, rounded to
four decimals, 0 for an empty set. -/
def amended_accuracy (recs : List PRecord) (p : Period) : ℚ :=
  if recs.length = 0 then 0
  else roundTo ((success_count recs p : ℚ) / (recs.length : ℚ)) 4

/-- Concrete fixture for the classification claims: the record of spec
section 8 with reference price 100, target range (102, 105), direction up. -/
def sampleRecord : PRecord :=
  { symbol := "2330", name := "sample", prev_close := 100, direction := "up",
    target_min := 102, target_max := 105, pred_pct_min := none, pred_pct_max := none,
    verification := fun _ => pendingVRes }

/-- Concrete fixture for claim C9: reference date 2025-10-14, symbol 2330,
direction up, target range (600, 610), prev_close 590. -/
def c9record : PRecord :=
  { symbol := "2330", name := "tsmc", prev_close := 590, direction := "up",
    target_min := 600, target_max := 610, pred_pct_min := none, pred_pct_max := none,
    verification := fun _ => pendingVRes }

/-- A verification entry that has already reached the terminal result
`success`, used to build stores whose records are no longer pending. -/
def successVRes : VRes :=
  { date := some 1, close_price := some 500, change_pct := some 0,
    in_target_range := some true, direction_correct := some true, result := "success" }

/-- A record whose T+0 horizon is already classified `success`. -/
def recSuccessT0 : PRecord :=
  { symbol := "2330", name := "sample", prev_close := 400, direction := "up",
    target_min := 450, target_max := 460, pred_pct_min := none, pred_pct_max := none,
    verification := Function.update (fun _ => pendingVRes) Period.T0 successVRes }

/-- A two-record set for claim C2: one record classified `success` at T+0,
one still pending there. -/
def mixedSet : PredSet :=
  { predictions := [recSuccessT0, sampleRecord], summary := fun _ => none }

/-- A store holding, under the Monday ordinal 8, a single record whose T+0
result is already terminal. -/
def storeVerified : Store :=
  fun d => if d = 8 then some { predictions := [recSuccessT0], summary := fun _ => none }
  else none

/-- A provider that always returns the close 300. -/
def gp300 : Provider := fun _ _ => some 300

/-- A record whose reference price is still unresolved (0). -/
def recNoPrev : PRecord :=
  { symbol := "2330", name := "sample", prev_close := 0, direction := "up",
    target_min := 102, target_max := 105, pred_pct_min := none, pred_pct_max := none,
    verification := fun _ => pendingVRes }

/-- A store holding, under the Monday ordinal 8, the unresolved record. -/
def storeNoPrev : Store :=
  fun d => if d = 8 then some { predictions := [recNoPrev], summary := fun _ => none }
  else none

/-- A provider with a close of 10 on the Monday ordinal 8 and a close of 99
on the preceding trading day (Friday ordinal 5): the reference price IS
available on the preceding trading day. -/
def gpPrevAvailable : Provider :=
  fun _ d => if d = 8 then some 10 else if d = 5 then some 99 else none

/-- A provider with no data at all. -/
def gpNone : Provider := fun _ _ => none

/-- A prediction block whose target-price pattern matched with the two
numbers in decreasing order (the text `110~105 元`). -/
def blockBadRange : Block :=
  { header := some ("uec", "2303"), direction_str := some "看漲",
    target := some (110, 105), prev_close_found := none }

/-- The record extraction produces for `blockBadRange`. -/
def recBadRange : RawPrediction :=
  { symbol := "2303", name := "uec", prev_close := 0, direction := "up",
    target_min := 110, target_max := 105 }

/-- Two well-formed prediction blocks. -/
def blockGood1 : Block :=
  { header := some ("tsmc", "2330"), direction_str := some "看漲",
    target := some (600, 610), prev_close_found := some 590 }

/-- Second well-formed block, with direction down. -/
def blockGood2 : Block :=
  { header := some ("uec", "2303"), direction_str := some "看跌",
    target := some (40, 42), prev_close_found := none }

/-- A malformed block: its target-price regex did not match. -/
def blockNoTarget : Block :=
  { header := some ("hh", "2317"), direction_str := some "看漲",
    target := none, prev_close_found := none }

/-- A report with two well-formed blocks and one malformed block. -/
def malformedReport : Report :=
  { date_found := true, blocks := [blockGood1, blockGood2, blockNoTarget] }

/-- The closed-form step functions land on weekdays and move by at most two
extra days; these facts justify them as the loop-free form of the source
while-loops. -/
theorem nextWeekdayFrom_isWeekday (x : ℤ) : isWeekday (nextWeekdayFrom x) = true := by
  simp only [nextWeekdayFrom, isWeekday, weekdayZ, decide_eq_true_eq] at *
  split_ifs with h1 h2 <;> omega

theorem prevWeekdayFrom_isWeekday (x : ℤ) : isWeekday (prevWeekdayFrom x) = true := by
  simp only [prevWeekdayFrom, isWeekday, weekdayZ, decide_eq_true_eq] at *
  split_ifs with h1 h2 <;> omega

theorem nextWeekdayFrom_least (x y : ℤ) (hy : x ≤ y) (hw : isWeekday y = true) :
    nextWeekdayFrom x ≤ y := by
  simp only [nextWeekdayFrom, isWeekday, weekdayZ, decide_eq_true_eq] at *
  split_ifs with h1 h2 <;> omega

theorem prevWeekdayFrom_le (x : ℤ) : prevWeekdayFrom x ≤ x := by
  simp only [prevWeekdayFrom]
  split_ifs <;> omega

theorem add_trading_days_succ (d : ℤ) (n : ℕ) :
    add_trading_days d (n + 1) = nextWeekdayFrom (add_trading_days d n + 1) := by
  induction n generalizing d with
  | zero => rfl
  | succ k ih =>
      show add_trading_days (nextWeekdayFrom (d + 1)) (k + 1) = _
      rw [ih]
      rfl

theorem subtract_trading_days_succ (d : ℤ) (n : ℕ) :
    subtract_trading_days d (n + 1) = prevWeekdayFrom (subtract_trading_days d n - 1) := by
  induction n generalizing d with
  | zero => rfl
  | succ k ih =>
      show subtract_trading_days (prevWeekdayFrom (d - 1)) (k + 1) = _
      rw [ih]
      rfl

theorem add_trading_days_isWeekday (d : ℤ) (n : ℕ) :
    isWeekday (add_trading_days d (n + 1)) = true := by
  rw [add_trading_days_succ]
  exact nextWeekdayFrom_isWeekday _

theorem subtract_trading_days_isWeekday (d : ℤ) (n : ℕ) :
    isWeekday (subtract_trading_days d (n + 1)) = true := by
  rw [subtract_trading_days_succ]
  exact prevWeekdayFrom_isWeekday _

/-- Stepping forward to the next trading day and then back to the previous
one returns to the start, provided the start is itself a weekday. -/
theorem prev_next_cancel (x : ℤ) (hx : isWeekday x = true) :
    prevWeekdayFrom (nextWeekdayFrom (x + 1) - 1) = x := by
  simp only [nextWeekdayFrom, prevWeekdayFrom, isWeekday, weekdayZ,
    decide_eq_true_eq] at *
  split_ifs with h1 h2 h3 h4 h5 h6 h7 h8 <;> omega

theorem subtract_add_trading_days (n : ℕ) (d : ℤ) (hd : isWeekday d = true) :
    subtract_trading_days (add_trading_days d n) n = d := by
  induction n generalizing d with
  | zero => rfl
  | succ k ih =>
      have hm : isWeekday (add_trading_days d k) = true := by
        cases k with
        | zero => exact hd
        | succ j => exact add_trading_days_isWeekday d j
      rw [add_trading_days_succ]
      show subtract_trading_days
        (prevWeekdayFrom (nextWeekdayFrom (add_trading_days d k + 1) - 1)) k = d
      rw [prev_next_cancel _ hm]
      exact ih d hd

theorem subtract_trading_days_le (n : ℕ) (d : ℤ) : subtract_trading_days d n ≤ d := by
  induction n generalizing d with
  | zero => exact le_refl d
  | succ k ih =>
      show subtract_trading_days (prevWeekdayFrom (d - 1)) k ≤ d
      calc subtract_trading_days (prevWeekdayFrom (d - 1)) k
          ≤ prevWeekdayFrom (d - 1) := ih _
        _ ≤ d - 1 := prevWeekdayFrom_le _
        _ ≤ d := by omega

theorem subtract_trading_days_lt (n : ℕ) (d : ℤ) : subtract_trading_days d (n + 1) < d := by
  show subtract_trading_days (prevWeekdayFrom (d - 1)) n < d
  calc subtract_trading_days (prevWeekdayFrom (d - 1)) n
      ≤ prevWeekdayFrom (d - 1) := subtract_trading_days_le _ _
    _ ≤ d - 1 := prevWeekdayFrom_le _
    _ < d := by omega

theorem subtract_trading_days_add (m n : ℕ) (d : ℤ) :
    subtract_trading_days d (m + n) = subtract_trading_days (subtract_trading_days d m) n := by
  induction m generalizing d with
  | zero =>
      rw [Nat.zero_add]
      rfl
  | succ k ih =>
      rw [Nat.succ_add]
      exact ih (prevWeekdayFrom (d - 1))

/-- C1 counterexample: the round-trip contract fails when the start date is
not a weekday.  2025-10-18 is a Saturday; adding one trading day reaches
Monday 2025-10-20, and subtracting one trading day from that Monday lands on
Friday 2025-10-17, not back on the Saturday. -/
theorem C1_roundtrip_counterexample :
    weekdayZ (toOrdinal 2025 10 18) = 5 ∧
    add_trading_days (toOrdinal 2025 10 18) 1 = toOrdinal 2025 10 20 ∧
    subtract_trading_days (add_trading_days (toOrdinal 2025 10 18) 1) 1
      = toOrdinal 2025 10 17 ∧
    ¬subtract_trading_days (add_trading_days (toOrdinal 2025 10 18) 1) 1
      = toOrdinal 2025 10 18 := by
  with_unfolding_all decide

/-- C1 (amended): for every WEEKDAY date `d` and every `n ≥ 0`,
`subtract_trading_days (add_trading_days d n) n = d`, and for `n ≥ 1` the
dates returned by `add_trading_days` and `subtract_trading_days` are never a
Saturday or Sunday. -/
theorem C1_trading_day_roundtrip :
    (∀ (d : ℤ) (n : ℕ), isWeekday d = true →
      subtract_trading_days (add_trading_days d n) n = d) ∧
    (∀ (d : ℤ) (n : ℕ), 1 ≤ n →
      isWeekday (add_trading_days d n) = true ∧
      isWeekday (subtract_trading_days d n) = true) := by
  constructor
  · intro d n hd
    exact subtract_add_trading_days n d hd
  · intro d n hn
    obtain ⟨k, rfl⟩ := Nat.exists_eq_add_of_le hn
    rw [Nat.add_comm]
    exact ⟨add_trading_days_isWeekday d k, subtract_trading_days_isWeekday d k⟩

/-- C1 witness: the round-trip law applied to the weekday 2025-10-14 with
n = 5, and weekday-ness of one-step results from the Saturday 2025-10-18. -/
theorem C1_trading_day_roundtrip_witness :
    subtract_trading_days (add_trading_days (toOrdinal 2025 10 14) 5) 5
      = toOrdinal 2025 10 14 ∧
    isWeekday (add_trading_days (toOrdinal 2025 10 18) 1) = true ∧
    isWeekday (subtract_trading_days (toOrdinal 2025 10 18) 1) = true :=
  ⟨C1_trading_day_roundtrip.1 (toOrdinal 2025 10 14) 5 (by with_unfolding_all decide),
   (C1_trading_day_roundtrip.2 (toOrdinal 2025 10 18) 1 (by decide)).1,
   (C1_trading_day_roundtrip.2 (toOrdinal 2025 10 18) 1 (by decide)).2⟩

/-- C4 (part 1): the source classification agrees, for every record and every
observed close, with the spec's classification rule (range check with
inclusive bounds, direction check per direction string, success/partial/fail
combination). -/
theorem C4_classification :
    (∀ (r : PRecord) (c : ℚ),
      ((verify_single_prediction r c).in_target_range,
       (verify_single_prediction r c).direction_correct,
       (verify_single_prediction r c).result)
        = spec_classify r.direction r.prev_close r.target_min r.target_max c) ∧
    (verify_single_prediction sampleRecord 103).result = "success" ∧
    (verify_single_prediction sampleRecord 108).result = "partial" ∧
    (verify_single_prediction sampleRecord 99).result = "fail" ∧
    (∀ (r : PRecord) (c : ℚ),
      (verify_single_prediction { r with direction := "neutral" } c).direction_correct
        = true) := by
  refine ⟨?_, by with_unfolding_all decide, by with_unfolding_all decide,
    by with_unfolding_all decide, ?_⟩
  · intro r c
    simp [verify_single_prediction, spec_classify, Bool.decide_and]
  · intro r c
    simp [verify_single_prediction]

/-- C9: the end-to-end example.  Adding one trading day to Tuesday 2025-10-14
gives Wednesday 2025-10-15, and a close of 605 against prev_close 590 with
target range (600, 610), direction up, classifies as success with a rounded
change of +2.54 percent. -/
theorem C9_end_to_end :
    add_trading_days (toOrdinal 2025 10 14) 1 = toOrdinal 2025 10 15 ∧
    (verify_single_prediction c9record 605).result = "success" ∧
    (verify_single_prediction c9record 605).in_target_range = true ∧
    (verify_single_prediction c9record 605).direction_correct = true ∧
    calculate_change_pct 590 605 = 2.54 := by
  with_unfolding_all decide

/-- C10: `_calculate_change_pct` is total on rationals and returns exactly 0
when the reference price is 0, instead of dividing by zero. -/
theorem C10_change_pct_zero_guard : ∀ close_price : ℚ,
    calculate_change_pct 0 close_price = 0 := by
  intro c
  simp [calculate_change_pct]

/-- C2 counterexample: in a set with one `success` record and one still
pending record at T+0, the source records accuracy 1/2 (the pending record is
counted in the denominator), while the claim's formula (success over
non-pending) gives 1. -/
theorem C2_accuracy_counterexample :
    (update_summary mixedSet Period.T0).summary Period.T0 = some (2, 1, 1/2) ∧
    claim_accuracy mixedSet.predictions Period.T0 = 1 ∧
    ((1 : ℚ) / 2) ≠ 1 := by
  with_unfolding_all decide

/-- C2 (amended): the summary recorded by `_update_summary` for horizon `p`
is (total records, success count, accuracy), where the accuracy divides the
success count by the number of ALL records of the set — pending records are
excluded from the numerator but counted in the denominator — rounded to four
decimals, 0 for an empty set. -/
theorem C2_accuracy_amended : ∀ (s : PredSet) (p : Period),
    (update_summary s p).summary p
      = some (s.predictions.length, success_count s.predictions p,
          amended_accuracy s.predictions p) := by
  intro s p
  unfold update_summary
  simp only [Function.update_same]
  rcases Nat.eq_zero_or_pos s.predictions.length with h | h
  · simp [amended_accuracy, h]
  · simp [amended_accuracy, h, Nat.pos_iff_ne_zero.mp h]

/-- C7 counterexample: the block whose target pattern matched `110~105`
passes extraction unchanged, producing a record with target_min 110 greater
than target_max 105 — no rejection of decreasing ranges exists. -/
theorem C7_range_counterexample :
    (extract_from_stock_sections [blockBadRange]).map (fun r => (r.target_min, r.target_max))
      = [(110, 105)] ∧ ¬((110 : ℚ) ≤ 105) := by
  with_unfolding_all decide

/-- C7 (amended): extraction never validates the parsed range; every record
it outputs carries exactly the (min, max) pair matched in its block, so
records with target_min greater than target_max are possible. -/
theorem C7_target_passthrough : ∀ (b : Block) (r : RawPrediction),
    extract_block b = some r → b.target = some (r.target_min, r.target_max) := by
  intro b r h
  unfold extract_block at h
  rcases hh : b.header with _ | nameSym <;> rw [hh] at h
  · exact Option.noConfusion h
  rcases hd : b.direction_str with _ | ds <;> rw [hd] at h
  · exact Option.noConfusion h
  rcases ht : b.target with _ | t <;> rw [ht] at h
  · exact Option.noConfusion h
  have h2 : some (⟨nameSym.2, nameSym.1, b.prev_close_found.getD 0,
      parse_direction ds, t.1, t.2⟩ : RawPrediction) = some r := h
  cases Option.some.inj h2
  rfl

/-- C7 witness: the pass-through applied to the decreasing-range block. -/
theorem C7_target_passthrough_witness :
    blockBadRange.target = some (recBadRange.target_min, recBadRange.target_max) :=
  C7_target_passthrough blockBadRange recBadRange (by with_unfolding_all decide)

/-- Dropped plus extracted blocks account for every block. -/
theorem extract_length_add_discarded (blocks : List Block) :
    (extract_from_stock_sections blocks).length + discarded_count blocks
      = blocks.length := by
  unfold extract_from_stock_sections discarded_count
  induction blocks with
  | nil => rfl
  | cons b bs ih =>
      cases h : extract_block b <;>
        simp [List.filterMap_cons, List.filter_cons, h] <;>
        omega

/-- C8 counterexample: on a report with two well-formed blocks and one
malformed block, the only count the source emits is 2 — the number of
EXTRACTED records — while the number of discarded blocks is 1; no count of
discarded blocks is part of the output. -/
theorem C8_no_discarded_count :
    (extract_predictions_from_report malformedReport).2 = 2 ∧
    discarded_count malformedReport.blocks = 1 ∧
    (2 : ℕ) ≠ 1 := by
  with_unfolding_all decide

/-- C8 (amended): extraction is total and degrades gracefully — the reported
count is the number of extracted records, a report without a parseable date
yields the empty result, extracted plus dropped blocks account for all
blocks, and any block missing its direction or its target range is dropped
rather than failing. -/
theorem C8_extraction_total : ∀ rep : Report,
    (extract_predictions_from_report rep).2
      = (extract_predictions_from_report rep).1.length ∧
    (rep.date_found = false → extract_predictions_from_report rep = ([], 0)) ∧
    (rep.date_found = true →
      (extract_predictions_from_report rep).1.length + discarded_count rep.blocks
        = rep.blocks.length) ∧
    (∀ b : Block, b.direction_str = none ∨ b.target = none → extract_block b = none) := by
  intro rep
  refine ⟨?_, ?_, ?_, ?_⟩
  · unfold extract_predictions_from_report
    cases hd : rep.date_found <;> simp
  · intro hd
    unfold extract_predictions_from_report
    simp [hd]
  · intro hd
    unfold extract_predictions_from_report
    simp only [hd, if_true]
    exact extract_length_add_discarded rep.blocks
  · intro b hb
    rcases hb with hb | hb
    · unfold extract_block
      rcases hh : b.header with _ | nameSym
      · rfl
      rw [hb]
    · unfold extract_block
      rcases hh : b.header with _ | nameSym
      · rfl
      rcases hdd : b.direction_str with _ | ds
      · rfl
      rw [hb]

/-- C8 witness: the amended contract applied to the concrete malformed
report. -/
theorem C8_extraction_total_witness :
    (extract_predictions_from_report malformedReport).2
      = (extract_predictions_from_report malformedReport).1.length ∧
    (extract_predictions_from_report malformedReport).1.length
        + discarded_count malformedReport.blocks = malformedReport.blocks.length ∧
    extract_block blockNoTarget = none :=
  ⟨(C8_extraction_total malformedReport).1,
   (C8_extraction_total malformedReport).2.2.1 rfl,
   (C8_extraction_total malformedReport).2.2.2 blockNoTarget (Or.inr rfl)⟩

/-- Verification never changes a record's symbol. -/
theorem verify_record_symbol (gp : Provider) (t : ℤ) (p : Period) (r : PRecord) :
    (verify_record gp t p r).symbol = r.symbol := by
  unfold verify_record
  cases gp r.symbol t <;> rfl

/-- Verification never changes a record's reference price. -/
theorem verify_record_prev_close (gp : Provider) (t : ℤ) (p : Period) (r : PRecord) :
    (verify_record gp t p r).prev_close = r.prev_close := by
  unfold verify_record
  cases gp r.symbol t <;> rfl

/-- A record whose close is unavailable is left untouched. -/
theorem verify_record_none (gp : Provider) (t : ℤ) (p : Period) (r : PRecord)
    (h : gp r.symbol t = none) : verify_record gp t p r = r := by
  unfold verify_record
  rw [h]

/-- The explicit value of `verify_record` when the close is available. -/
theorem verify_record_some (gp : Provider) (t : ℤ) (p : Period) (r : PRecord) (c : ℚ)
    (h : gp r.symbol t = some c) :
    verify_record gp t p r
      = { r with verification :=
            Function.update r.verification p (classified_vres t r c) } := by
  unfold verify_record
  rw [h]

/-- Reclassifying an already classified record writes the same entry again:
the written value depends only on fields verification never changes. -/
theorem verify_record_idem (gp : Provider) (t : ℤ) (p : Period) (r : PRecord) :
    verify_record gp t p (verify_record gp t p r) = verify_record gp t p r := by
  cases h : gp r.symbol t with
  | none => simp [verify_record_none gp t p r h]
  | some c =>
      rw [verify_record_some gp t p r c h]
      rw [verify_record_some gp t p
        { r with verification := Function.update r.verification p (classified_vres t r c) } c h]
      rw [Function.update_idem]
      rfl

/-- Updating the summary does not touch the record list. -/
theorem update_summary_predictions (s : PredSet) (p : Period) :
    (update_summary s p).predictions = s.predictions := rfl

/-- The record list produced by one horizon's processing. -/
theorem verify_set_predictions (gp : Provider) (t : ℤ) (p : Period) (data : PredSet) :
    (verify_set gp t p data).predictions = data.predictions.map (verify_record gp t p) := by
  simp only [verify_set]
  split_ifs <;> rfl

/-- The availability count is invariant under reprocessing, because symbols
are preserved. -/
theorem filter_isSome_map (gp : Provider) (t : ℤ) (p : Period) (l : List PRecord) :
    ((l.map (verify_record gp t p)).filter (fun pred => (gp pred.symbol t).isSome)).length
      = (l.filter (fun pred => (gp pred.symbol t).isSome)).length := by
  rw [List.filter_map, List.length_map]
  congr 1
  apply List.filter_congr
  intro a _
  simp [Function.comp, verify_record_symbol]

/-- Reprocessing a processed record list is a no-op. -/
theorem map_verify_record_idem (gp : Provider) (t : ℤ) (p : Period) (l : List PRecord) :
    (l.map (verify_record gp t p)).map (verify_record gp t p)
      = l.map (verify_record gp t p) := by
  rw [List.map_map]
  exact List.map_congr_left (fun a _ => verify_record_idem gp t p a)

/-- Recomputing the summary from unchanged records writes the same entry. -/
theorem update_summary_idem (s : PredSet) (p : Period) :
    update_summary (update_summary s p) p = update_summary s p := by
  unfold update_summary
  simp [Function.update_idem]

/-- Reprocessing one horizon of a prediction set is a no-op: the records are
already classified identically and the summary is recomputed to the same
entry. -/
theorem verify_set_idem (gp : Provider) (t : ℤ) (p : Period) (data : PredSet) :
    verify_set gp t p (verify_set gp t p data) = verify_set gp t p data := by
  have hdef : ∀ d : PredSet, verify_set gp t p d
      = if 0 < (d.predictions.filter (fun pred => (gp pred.symbol t).isSome)).length
        then update_summary { d with predictions := d.predictions.map (verify_record gp t p) } p
        else { d with predictions := d.predictions.map (verify_record gp t p) } :=
    fun d => rfl
  have hcount :
      ((verify_set gp t p data).predictions.filter
          (fun pred => (gp pred.symbol t).isSome)).length
        = (data.predictions.filter (fun pred => (gp pred.symbol t).isSome)).length := by
    rw [verify_set_predictions, filter_isSome_map]
  have hmap :
      (verify_set gp t p data).predictions.map (verify_record gp t p)
        = (verify_set gp t p data).predictions := by
    rw [verify_set_predictions, map_verify_record_idem]
  rw [hdef (verify_set gp t p data), hcount, hmap]
  have heta : ({ verify_set gp t p data with
      predictions := (verify_set gp t p data).predictions } : PredSet)
      = verify_set gp t p data := rfl
  rw [heta]
  by_cases hc : 0 < (data.predictions.filter (fun pred => (gp pred.symbol t).isSome)).length
  · rw [if_pos hc, hdef data, if_pos hc, update_summary_idem]
  · rw [if_neg hc]

/-- The store value a horizon writes at its own source date. -/
theorem verify_period_at (gp : Provider) (t : ℤ) (p : Period) (st : Store) :
    verify_period gp t p st (subtract_trading_days t (periodDays p))
      = Option.map (verify_set gp t p) (st (subtract_trading_days t (periodDays p))) := by
  unfold verify_period
  cases h : st (subtract_trading_days t (periodDays p)) <;>
    simp [h, Function.update_same]

/-- A horizon leaves every other date of the store untouched. -/
theorem verify_period_ne (gp : Provider) (t : ℤ) (p : Period) (st : Store) (d : ℤ)
    (hd : d ≠ subtract_trading_days t (periodDays p)) :
    verify_period gp t p st d = st d := by
  unfold verify_period
  cases h : st (subtract_trading_days t (periodDays p)) with
  | none => rfl
  | some data => exact Function.update_noteq hd _ _

/-- Subtracting strictly more trading days reaches a strictly earlier date. -/
theorem subtract_trading_days_strict (d : ℤ) (m n : ℕ) (h : m < n) :
    subtract_trading_days d n < subtract_trading_days d m := by
  obtain ⟨k, rfl⟩ := Nat.exists_eq_add_of_lt h
  rw [Nat.add_assoc, subtract_trading_days_add m (k + 1) d]
  exact subtract_trading_days_lt k (subtract_trading_days d m)

/-- C6: `verify_predictions` is idempotent — running it a second time with
the same provider responses and the same as-of date leaves the store (records,
verification entries and summaries) exactly as after the first run. -/
theorem C6_verify_idempotent : ∀ (gp : Provider) (t : ℤ) (st : Store),
    verify_predictions gp t (verify_predictions gp t st) = verify_predictions gp t st := by
  intro gp t st
  have hlt : ∀ q1 q2 : Period, periodDays q1 < periodDays q2 →
      subtract_trading_days t (periodDays q2) ≠ subtract_trading_days t (periodDays q1) :=
    fun q1 q2 h => ne_of_lt (subtract_trading_days_strict t _ _ h)
  have h01 := hlt Period.T0 Period.T1 (by decide)
  have h03 := hlt Period.T0 Period.T3 (by decide)
  have h05 := hlt Period.T0 Period.T5 (by decide)
  have h13 := hlt Period.T1 Period.T3 (by decide)
  have h15 := hlt Period.T1 Period.T5 (by decide)
  have h35 := hlt Period.T3 Period.T5 (by decide)
  have hG0 : ∀ st' : Store,
      verify_predictions gp t st' (subtract_trading_days t (periodDays Period.T0))
        = Option.map (verify_set gp t Period.T0)
            (st' (subtract_trading_days t (periodDays Period.T0))) := by
    intro st'
    unfold verify_predictions
    rw [verify_period_ne gp t Period.T5 _ _ h05.symm,
        verify_period_ne gp t Period.T3 _ _ h03.symm,
        verify_period_ne gp t Period.T1 _ _ h01.symm,
        verify_period_at gp t Period.T0 st']
  have hG1 : ∀ st' : Store,
      verify_predictions gp t st' (subtract_trading_days t (periodDays Period.T1))
        = Option.map (verify_set gp t Period.T1)
            (st' (subtract_trading_days t (periodDays Period.T1))) := by
    intro st'
    unfold verify_predictions
    rw [verify_period_ne gp t Period.T5 _ _ h15.symm,
        verify_period_ne gp t Period.T3 _ _ h13.symm,
        verify_period_at gp t Period.T1 _,
        verify_period_ne gp t Period.T0 st' _ h01]
  have hG3 : ∀ st' : Store,
      verify_predictions gp t st' (subtract_trading_days t (periodDays Period.T3))
        = Option.map (verify_set gp t Period.T3)
            (st' (subtract_trading_days t (periodDays Period.T3))) := by
    intro st'
    unfold verify_predictions
    rw [verify_period_ne gp t Period.T5 _ _ h35.symm,
        verify_period_at gp t Period.T3 _,
        verify_period_ne gp t Period.T1 _ _ h13,
        verify_period_ne gp t Period.T0 st' _ h03]
  have hG5 : ∀ st' : Store,
      verify_predictions gp t st' (subtract_trading_days t (periodDays Period.T5))
        = Option.map (verify_set gp t Period.T5)
            (st' (subtract_trading_days t (periodDays Period.T5))) := by
    intro st'
    unfold verify_predictions
    rw [verify_period_at gp t Period.T5 _,
        verify_period_ne gp t Period.T3 _ _ h35,
        verify_period_ne gp t Period.T1 _ _ h15,
        verify_period_ne gp t Period.T0 st' _ h05]
  have hGne : ∀ (st' : Store) (d : ℤ),
      d ≠ subtract_trading_days t (periodDays Period.T0) →
      d ≠ subtract_trading_days t (periodDays Period.T1) →
      d ≠ subtract_trading_days t (periodDays Period.T3) →
      d ≠ subtract_trading_days t (periodDays Period.T5) →
      verify_predictions gp t st' d = st' d := by
    intro st' d h0 h1 h3 h5
    unfold verify_predictions
    rw [verify_period_ne gp t Period.T5 _ d h5,
        verify_period_ne gp t Period.T3 _ d h3,
        verify_period_ne gp t Period.T1 _ d h1,
        verify_period_ne gp t Period.T0 st' d h0]
  funext d
  by_cases hd0 : d = subtract_trading_days t (periodDays Period.T0)
  · rw [hd0]
    rw [hG0 (verify_predictions gp t st), hG0 st]
    cases hx : st (subtract_trading_days t (periodDays Period.T0)) <;>
      simp [verify_set_idem]
  by_cases hd1 : d = subtract_trading_days t (periodDays Period.T1)
  · rw [hd1]
    rw [hG1 (verify_predictions gp t st), hG1 st]
    cases hx : st (subtract_trading_days t (periodDays Period.T1)) <;>
      simp [verify_set_idem]
  by_cases hd3 : d = subtract_trading_days t (periodDays Period.T3)
  · rw [hd3]
    rw [hG3 (verify_predictions gp t st), hG3 st]
    cases hx : st (subtract_trading_days t (periodDays Period.T3)) <;>
      simp [verify_set_idem]
  by_cases hd5 : d = subtract_trading_days t (periodDays Period.T5)
  · rw [hd5]
    rw [hG5 (verify_predictions gp t st), hG5 st]
    cases hx : st (subtract_trading_days t (periodDays Period.T5)) <;>
      simp [verify_set_idem]
  · exact hGne (verify_predictions gp t st) d hd0 hd1 hd3 hd5

/-- C3 counterexample: a record whose T+0 result is already the terminal
`success` is reprocessed by `verify_predictions` and its stored
VerificationResult is overwritten — with the provider now reporting close
300, the entry flips to `fail`.  The source loop never tests for `pending`. -/
theorem C3_terminal_rewritten :
    Option.map (fun s => s.predictions.map (fun r => (r.verification Period.T0).result))
        (storeVerified 8) = some ["success"] ∧
    Option.map (fun s => s.predictions.map (fun r => (r.verification Period.T0).result))
        (verify_predictions gp300 8 storeVerified 8) = some ["fail"] ∧
    ("success" : String) ≠ "fail" := by
  with_unfolding_all decide

/-- C3 (amended): `verify_predictions` processes every record of the matched
set regardless of its verification state.  When the provider returns a close,
the horizon's entry is overwritten with a freshly computed result that is
independent of the previous verification state (so terminal entries are
rewritten exactly like pending ones); a record is preserved only when the
provider returns no close for its symbol. -/
theorem C3_overwrite_regardless : ∀ (gp : Provider) (t : ℤ) (p : Period) (r : PRecord)
    (v : Period → VRes),
    (∀ c : ℚ, gp r.symbol t = some c →
      (verify_record gp t p { r with verification := v }).verification p
        = (verify_record gp t p r).verification p) ∧
    (gp r.symbol t = none → verify_record gp t p r = r) := by
  intro gp t p r v
  constructor
  · intro c h
    rw [verify_record_some gp t p { r with verification := v } c h,
        verify_record_some gp t p r c h]
    show Function.update v p (classified_vres t { r with verification := v } c) p
        = Function.update r.verification p (classified_vres t r c) p
    rw [Function.update_same, Function.update_same]
    rfl
  · intro h
    exact verify_record_none gp t p r h

/-- C3 witness: the overwrite independence at a concrete record with its T+0
already `success`, and preservation under an empty provider. -/
theorem C3_overwrite_regardless_witness :
    (verify_record gp300 8 Period.T0
        { recSuccessT0 with verification := fun _ => pendingVRes }).verification Period.T0
      = (verify_record gp300 8 Period.T0 recSuccessT0).verification Period.T0 ∧
    verify_record gpNone 8 Period.T0 recSuccessT0 = recSuccessT0 :=
  ⟨(C3_overwrite_regardless gp300 8 Period.T0 recSuccessT0 (fun _ => pendingVRes)).1 300 rfl,
   (C3_overwrite_regardless gpNone 8 Period.T0 recSuccessT0 (fun _ => pendingVRes)).2 rfl⟩

/-- One horizon of verification preserves every record's `prev_close`, at
every date of the store. -/
theorem verify_period_prev_closes (gp : Provider) (t : ℤ) (p : Period) (st : Store) (k : ℤ) :
    Option.map (fun s => s.predictions.map (fun r => r.prev_close)) (verify_period gp t p st k)
      = Option.map (fun s => s.predictions.map (fun r => r.prev_close)) (st k) := by
  by_cases hk : k = subtract_trading_days t (periodDays p)
  · rw [hk, verify_period_at]
    cases hx : st (subtract_trading_days t (periodDays p)) with
    | none => rfl
    | some data =>
        show some ((verify_set gp t p data).predictions.map (fun r => r.prev_close))
          = some (data.predictions.map (fun r => r.prev_close))
        rw [verify_set_predictions, List.map_map]
        exact congrArg some
          (List.map_congr_left (fun a _ => verify_record_prev_close gp t p a))
  · rw [verify_period_ne gp t p st k hk]

/-- C5 counterexample: a record with unresolved `prev_close` (0) in the T+0
set, with the reference price AVAILABLE from the provider on the preceding
trading day (close 99 on Friday ordinal 5), is still classified by
`verify_predictions` with `prev_close` left at 0: no backfill is attempted
and the record is not left unresolved. -/
theorem C5_verify_classifies_unresolved :
    gpPrevAvailable "2330" (subtract_trading_days 8 1) = some 99 ∧
    Option.map
        (fun s => s.predictions.map (fun r => (r.prev_close, (r.verification Period.T0).result)))
        (verify_predictions gpPrevAvailable 8 storeNoPrev 8)
      = some [(0, "partial")] ∧
    (0 : ℚ) ≠ 99 ∧
    ("partial" : String) ≠ "pending" := by
  with_unfolding_all decide

/-- C5 (amended): `verify_predictions` never touches `prev_close` (the lazy
backfill lives only in the historical-import path `_verify_historical_periods`):
there, a record whose reference price is unresolved and unavailable on the
preceding trading day is left entirely untouched — prev_close stays 0 and no
horizon of it is classified — to be retried on a later run; when the
preceding-day close is available (and nonzero), prev_close is filled with it. -/
theorem C5_backfill_in_historical_only : ∀ (gp : Provider) (t : ℤ) (st : Store) (k : ℤ),
    Option.map (fun s => s.predictions.map (fun r => r.prev_close))
        (verify_predictions gp t st k)
      = Option.map (fun s => s.predictions.map (fun r => r.prev_close)) (st k) ∧
    (∀ (prev_date : ℤ) (r : PRecord), r.prev_close = 0 →
      gp r.symbol prev_date = none → backfill_record gp prev_date r = r) ∧
    (∀ (prev_date : ℤ) (r : PRecord) (pc : ℚ), r.prev_close = 0 →
      gp r.symbol prev_date = some pc → pc ≠ 0 →
      (backfill_record gp prev_date r).prev_close = pc) ∧
    (∀ (vd : ℤ) (p : Period) (r : PRecord), r.prev_close = 0 →
      historical_classify gp vd p r = r) := by
  intro gp t st k
  refine ⟨?_, ?_, ?_, ?_⟩
  · unfold verify_predictions
    rw [verify_period_prev_closes gp t Period.T5 _ k,
        verify_period_prev_closes gp t Period.T3 _ k,
        verify_period_prev_closes gp t Period.T1 _ k,
        verify_period_prev_closes gp t Period.T0 st k]
  · intro prev_date r h0 hnone
    unfold backfill_record
    rw [if_pos h0, hnone]
  · intro prev_date r pc h0 hsome hpc
    unfold backfill_record
    rw [if_pos h0]
    simp only [hsome]
    rw [if_neg hpc]
    cases r.pred_pct_min <;> cases r.pred_pct_max <;> rfl
  · intro vd p r h0
    unfold historical_classify
    cases hx : gp r.symbol vd with
    | none => rfl
    | some c => simp [h0]

/-- C5 witness: the amended behaviour at concrete inputs — an unavailable
preceding-day close leaves the unresolved record untouched, an available one
fills prev_close with 99, and the historical classifier skips a record whose
prev_close is still 0. -/
theorem C5_backfill_in_historical_only_witness :
    backfill_record gpNone 5 recNoPrev = recNoPrev ∧
    (backfill_record gpPrevAvailable 5 recNoPrev).prev_close = 99 ∧
    historical_classify gpNone 8 Period.T0 recNoPrev = recNoPrev :=
  ⟨(C5_backfill_in_historical_only gpNone 8 storeNoPrev 8).2.1 5 recNoPrev rfl rfl,
   (C5_backfill_in_historical_only gpPrevAvailable 8 storeNoPrev 8).2.2.1 5 recNoPrev 99 rfl
     (by with_unfolding_all decide) (by norm_num),
   (C5_backfill_in_historical_only gpNone 8 storeNoPrev 8).2.2.2 8 Period.T0 recNoPrev rfl⟩
